import Mathlib

/-!
Shallow embedding of the session-lifecycle and data-pipeline orchestration
layer of the chrono-insight dashboard (`src/main.py`).

The embedding models:
* the `SessionManager` class (its fields become the `SessionManager`
  structure; method calls become pure state-passing functions);
* the per-session dictionaries (`self.sessions[sid]`) as association lists
  with Python-dict update semantics (`dictGet` / `dictSet` / `dictDel`);
* the filesystem as an association list from full path to byte content;
  `open(path,'wb').write(data)` becomes `dictSet`, `os.path.exists` becomes
  `(dictGet fs path).isSome`, `shutil.rmtree` removes every entry whose path
  starts with the tree root;
* external collaborators (`base64.b64decode`, the NLP pipeline functions
  `process_pdfs` / `create_nlp_enhanced_dataframes`, and `pd.read_csv`) as
  abstract function parameters bundled in environment structures, since they
  live outside this repository;
* `datetime.now()` as an explicit `now : Nat` clock argument, and
  `uuid.uuid4()[:8]` as an explicit fresh-identifier argument.
-/

namespace ChronoInsight

/-- Raw byte payloads (`bytes` in Python) are modelled as lists of naturals. -/
abbrev Bytes := List Nat

/-- The filesystem: full path to file content, Python-dict semantics. -/
abbrev FS := List (String × Bytes)

/-- Association-list lookup with Python-dict semantics (`m[k]` / `k in m`). -/
def dictGet {α : Type} (m : List (String × α)) (k : String) : Option α :=
  match m with
  | [] => none
  | (k1, v) :: rest => if k1 = k then some v else dictGet rest k

/-- Association-list update with Python-dict semantics (`m[k] = v`):
replaces in place if the key is present, appends otherwise. -/
def dictSet {α : Type} (m : List (String × α)) (k : String) (v : α) :
    List (String × α) :=
  match m with
  | [] => [(k, v)]
  | (k1, v1) :: rest =>
    if k1 = k then (k, v) :: rest else (k1, v1) :: dictSet rest k v

/-- Association-list deletion (`del m[k]`). -/
def dictDel {α : Type} (m : List (String × α)) (k : String) :
    List (String × α) :=
  match m with
  | [] => []
  | (k1, v1) :: rest =>
    if k1 = k then rest else (k1, v1) :: dictDel rest k

/-- `str.lower()`. -/
def strLower (s : String) : String := String.mk (s.data.map Char.toLower)

/-- `str.endswith(suf)`. -/
def strEndsWith (s suf : String) : Bool := List.isSuffixOf suf.data s.data

/-- `str.startswith(pre)`. -/
def strStartsWith (s pre : String) : Bool := List.isPrefixOf pre.data s.data

/-- Character-list splitting underlying `str.split(sep)`. -/
def splitChars (sep : Char) : List Char → List (List Char)
  | [] => [[]]
  | c :: rest =>
    let r := splitChars sep rest
    if c = sep then [] :: r
    else
      match r with
      | [] => [[c]]
      | cur :: more => (c :: cur) :: more

/-- `str.split(sep)` for a one-character separator. -/
def pySplit (s : String) (sep : Char) : List String :=
  (splitChars sep s.data).map String.mk

/-- `os.path.join` for the slash-free relative components used in the code. -/
def joinPath (a b : String) : String := a ++ "/" ++ b

-- Path constants from the configuration block of `src/main.py`.

def BASE_PATH : String := "/project/workspace/"

def DEFAULT_DATA_PATH : String := BASE_PATH ++ "/default_data"

def USER_SESSIONS_PATH : String := BASE_PATH ++ "/user_sessions"

/-- One entry of `SessionManager.sessions`: the per-session dict created in
`create_new_session` and mutated by ingestion and processing.  Keys that are
absent until first written (`last_updated`, `last_processed`,
`insight_count`) are modelled as `Option` fields initialised to `none`. -/
structure Session where
  created_at : Nat
  uploaded_files : List String
  processed_files : List String
  session_path : String
  upload_path : String
  processed_path : String
  last_updated : Option Nat
  last_processed : Option Nat
  insight_count : Option Nat
  deriving DecidableEq, Repr

/-- The mutable state of the `SessionManager` class. -/
structure SessionManager where
  current_mode : String
  current_session_id : Option String
  sessions : List (String × Session)
  has_unprocessed_files : Bool
  deriving DecidableEq, Repr

/-- `SessionManager.__init__`. -/
def SessionManager.init : SessionManager :=
  { current_mode := "default"
    current_session_id := none
    sessions := []
    has_unprocessed_files := false }

/-- Result of a state-mutating method that returns `(bool, str)` in Python:
the updated manager and filesystem plus the returned pair. -/
structure StepResult where
  mgr : SessionManager
  fs : FS
  ok : Bool
  msg : String
  deriving DecidableEq, Repr

/-- `SessionManager.create_new_session`, with the fresh identifier
`uuid.uuid4()[:8]` and the clock passed explicitly.  Directory creation
(`os.makedirs(..., exist_ok=True)`) has no effect on the file map. -/
def create_new_session (now : Nat) (session_id : String)
    (mgr : SessionManager) : SessionManager × String :=
  let session_path := joinPath USER_SESSIONS_PATH ("session_" ++ session_id)
  let upload_path := joinPath session_path "uploaded_pdfs"
  let processed_path := joinPath session_path "processed_data"
  let session : Session :=
    { created_at := now
      uploaded_files := []
      processed_files := []
      session_path := session_path
      upload_path := upload_path
      processed_path := processed_path
      last_updated := none
      last_processed := none
      insight_count := none }
  ({ mgr with
      sessions := dictSet mgr.sessions session_id session
      current_session_id := some session_id
      current_mode := "user"
      has_unprocessed_files := true },
   session_id)

/-- External decoder environment: `base64.b64decode`, which may raise
(modelled as `none`). -/
structure UploadEnv where
  b64decode : String → Option Bytes

/-- The decode step of `add_files_to_session`: strip the data-URL label if
present, then base64-decode; any failure is reported as `none` (the Python
code catches the exception and skips the file). -/
def decodeContent (env : UploadEnv) (content : String) : Option Bytes :=
  if strStartsWith content "data:application/pdf;base64," then
    match (pySplit content ',')[1]? with
    | some b64data => env.b64decode b64data
    | none => none
  else
    env.b64decode content

/-- One iteration of the `for content, filename in zip(...)` loop of
`add_files_to_session`, acting on the accumulated `(filesystem,
saved_files)` pair. -/
def ingestStep (env : UploadEnv) (upload_path : String)
    (acc : FS × List String) (cf : String × String) : FS × List String :=
  if !(strEndsWith (strLower cf.2) ".pdf") then acc
  else
    match decodeContent env cf.1 with
    | none => acc
    | some file_data =>
      (dictSet acc.1 (joinPath upload_path cf.2) file_data,
       acc.2 ++ [cf.2])

/-- `SessionManager.add_files_to_session`. -/
def add_files_to_session (env : UploadEnv) (now : Nat) (mgr : SessionManager)
    (fs : FS) (session_id : String) (file_contents : List String)
    (filenames : List String) : StepResult :=
  match dictGet mgr.sessions session_id with
  | none => ⟨mgr, fs, false, "Session not found"⟩
  | some session =>
    let r := (file_contents.zip filenames).foldl
      (ingestStep env session.upload_path) (fs, [])
    let session2 := { session with
        uploaded_files := session.uploaded_files ++ r.2
        last_updated := some now }
    ⟨{ mgr with
        sessions := dictSet mgr.sessions session_id session2
        has_unprocessed_files := true },
      r.1, true, "Added " ++ toString r.2.length ++ " files to session"⟩

/-- `SessionManager.get_session_files`. -/
def get_session_files (mgr : SessionManager) (session_id : String) :
    List String :=
  match dictGet mgr.sessions session_id with
  | none => []
  | some session => session.uploaded_files

/-- The five derived-table file names, in the order the code writes and
checks them. -/
def tableFileNames : List String :=
  ["nlp_ai_insights.csv", "nlp_domain_analysis.csv",
   "nlp_temporal_analysis.csv", "nlp_pattern_analysis.csv",
   "nlp_entity_analysis.csv"]

/-- External analyzer environment: `NLP_AVAILABLE`, `process_pdfs` and
`create_nlp_enhanced_dataframes` from the (out-of-repository) NLP pipeline.
`α` is the type of extracted insight records; each produced dataframe is
modelled by its serialized (`to_csv`) byte content. -/
structure PipelineEnv (α : Type) where
  nlp_available : Bool
  process_pdfs : String → List α
  create_nlp_enhanced_dataframes :
    List α → Bytes × Bytes × Bytes × Bytes × Bytes

/-- `SessionManager.process_session_pdfs`. -/
def process_session_pdfs {α : Type} (env : PipelineEnv α) (now : Nat)
    (mgr : SessionManager) (fs : FS) (session_id : String) : StepResult :=
  if !env.nlp_available then ⟨mgr, fs, false, "NLP processing not available"⟩
  else
    match dictGet mgr.sessions session_id with
    | none => ⟨mgr, fs, false, "Session not found"⟩
    | some session =>
      let all_insights := env.process_pdfs session.upload_path
      if all_insights.isEmpty then
        ⟨mgr, fs, false, "No insights extracted from PDFs"⟩
      else
        let tables := env.create_nlp_enhanced_dataframes all_insights
        let p := session.processed_path
        let fs1 := dictSet fs (joinPath p "nlp_ai_insights.csv") tables.1
        let fs2 := dictSet fs1 (joinPath p "nlp_domain_analysis.csv")
          tables.2.1
        let fs3 := dictSet fs2 (joinPath p "nlp_temporal_analysis.csv")
          tables.2.2.1
        let fs4 := dictSet fs3 (joinPath p "nlp_pattern_analysis.csv")
          tables.2.2.2.1
        let fs5 := dictSet fs4 (joinPath p "nlp_entity_analysis.csv")
          tables.2.2.2.2
        let created_files := tableFileNames.filter
          (fun f => (dictGet fs5 (joinPath p f)).isSome)
        let session2 := { session with
            processed_files := created_files
            last_processed := some now
            insight_count := some all_insights.length }
        ⟨{ mgr with
            sessions := dictSet mgr.sessions session_id session2
            has_unprocessed_files := false },
          fs5, true,
          "Successfully processed " ++ toString all_insights.length
            ++ " insights"⟩

/-- `SessionManager.clear_session`.  `shutil.rmtree` is best-effort removal
of the whole session directory tree. -/
def clear_session (mgr : SessionManager) (fs : FS) (session_id : String) :
    SessionManager × FS :=
  let step1 : SessionManager × FS :=
    match dictGet mgr.sessions session_id with
    | some session =>
      ({ mgr with sessions := dictDel mgr.sessions session_id },
       fs.filter (fun e => !(strStartsWith e.1 session.session_path)))
    | none => (mgr, fs)
  if step1.1.current_session_id = some session_id then
    ({ step1.1 with
        current_session_id := none
        current_mode := "default"
        has_unprocessed_files := false },
     step1.2)
  else step1

/-- `SessionManager.switch_to_default`. -/
def switch_to_default (mgr : SessionManager) : SessionManager :=
  { mgr with
      current_mode := "default"
      current_session_id := none
      has_unprocessed_files := false }

/-- The re-resolution of `self.current_session_id in self.sessions`
performed by `get_current_data_path`. -/
def currentSessionRecord (mgr : SessionManager) : Option Session :=
  Option.bind mgr.current_session_id (fun sid => dictGet mgr.sessions sid)

/-- `SessionManager.get_current_data_path`. -/
def get_current_data_path (mgr : SessionManager) : String :=
  if mgr.current_mode = "default" then DEFAULT_DATA_PATH
  else if mgr.current_mode = "user" then
    match currentSessionRecord mgr with
    | some session => session.processed_path
    | none => DEFAULT_DATA_PATH
  else DEFAULT_DATA_PATH

/-- `SessionManager.get_processing_status`. -/
def get_processing_status (mgr : SessionManager) (session_id : String) :
    String :=
  match dictGet mgr.sessions session_id with
  | none => "No active session"
  | some session =>
    let file_count := session.uploaded_files.length
    let processed_count := session.insight_count.getD 0
    if mgr.has_unprocessed_files then
      "Ready to process " ++ toString file_count ++ " PDFs"
    else if processed_count > 0 then
      "Processed " ++ toString file_count ++ " PDFs ("
        ++ toString processed_count ++ " insights)"
    else
      toString file_count ++ " PDFs uploaded - Ready to process"

/-- The mode-commit step of the `update_data_source_indicator` callback
(`session_manager.current_mode = data_source`, line 765) and of
`handle_file_upload` (`session_manager.current_mode = 'user'`, line 943):
the mode is assigned unconditionally, with no session-store lookup. -/
def set_data_source (mgr : SessionManager) (data_source : String) :
    SessionManager :=
  { mgr with current_mode := data_source }

/-- One slot of the loading loop in `load_current_data`: read the file,
parse it with `pd.read_csv` (abstracted as `read_csv`, `none` = parse
failure), and substitute the empty table `emptyT` for a missing file or a
parse failure. -/
def loadTable {β : Type} (read_csv : Bytes → Option β) (emptyT : β)
    (fs : FS) (data_path filename : String) : β :=
  match dictGet fs (joinPath data_path filename) with
  | some content =>
    match read_csv content with
    | some df => df
    | none => emptyT
  | none => emptyT

/-- The body of `load_current_data` for a given data path: the five-slot
loading loop followed by the `dataframes.get(..., pd.DataFrame())` tuple
return. -/
def load_from_path {β : Type} (read_csv : Bytes → Option β) (emptyT : β)
    (fs : FS) (data_path : String) : β × β × β × β × β :=
  (loadTable read_csv emptyT fs data_path "nlp_ai_insights.csv",
   loadTable read_csv emptyT fs data_path "nlp_domain_analysis.csv",
   loadTable read_csv emptyT fs data_path "nlp_temporal_analysis.csv",
   loadTable read_csv emptyT fs data_path "nlp_pattern_analysis.csv",
   loadTable read_csv emptyT fs data_path "nlp_entity_analysis.csv")

/-- `load_current_data`: resolve the active data path, then load. -/
def load_current_data {β : Type} (read_csv : Bytes → Option β) (emptyT : β)
    (mgr : SessionManager) (fs : FS) : β × β × β × β × β :=
  load_from_path read_csv emptyT fs (get_current_data_path mgr)

/-!
## Specification helpers

Closed-form descriptions of what the ingestion loop produces, proved equal
to the loop below.  `acceptedNames` lists the filenames the loop accepts
(allowed `.pdf` extension and successful decode) in submission order,
duplicates kept; `lastAcceptedPayload` is the decoded payload of the last
accepted batch entry bearing a given name, i.e. the content that
last-write-wins leaves on disk.
-/

/-- Accepted filenames of an ingestion batch, in submission order. -/
def acceptedNames (env : UploadEnv) : List (String × String) → List String
  | [] => []
  | (content, filename) :: rest =>
    if !(strEndsWith (strLower filename) ".pdf") then acceptedNames env rest
    else
      match decodeContent env content with
      | none => acceptedNames env rest
      | some _ => filename :: acceptedNames env rest

/-- First-result choice: a later write (`o`) shadows the prior file
content (`fallback`). -/
def overlayRead (o fallback : Option Bytes) : Option Bytes :=
  match o with
  | some d => some d
  | none => fallback

/-- Decoded payload of the last accepted entry named `nm`, if any. -/
def lastAcceptedPayload (env : UploadEnv) (nm : String) :
    List (String × String) → Option Bytes
  | [] => none
  | (content, filename) :: rest =>
    overlayRead (lastAcceptedPayload env nm rest)
      (if strEndsWith (strLower filename) ".pdf" ∧ filename = nm then
        decodeContent env content
      else none)

/-- The derived-table file name of each of the five dataset slots, in the
order `load_current_data` fills its tuple. -/
def slotName (i : Fin 5) : String := tableFileNames.get ⟨i.1, i.2⟩

/-- Projection of the `i`-th slot out of the five-table result. -/
def slotOf {β : Type} (t : β × β × β × β × β) (i : Fin 5) : β :=
  match i with
  | ⟨0, _⟩ => t.1
  | ⟨1, _⟩ => t.2.1
  | ⟨2, _⟩ => t.2.2.1
  | ⟨3, _⟩ => t.2.2.2.1
  | ⟨4, _⟩ => t.2.2.2.2

/-!
## Concrete fixtures

Closed states and environments used to evaluate the theorems on concrete
inputs.
-/

/-- A concrete stand-in for `base64.b64decode`: fails on the empty string,
decodes anything else to its code points. -/
def testDecode : String → Option Bytes :=
  fun s => if s = "" then none else some (s.data.map Char.toNat)

/-- Concrete upload environment. -/
def testUploadEnv : UploadEnv := ⟨testDecode⟩

/-- Concrete analyzer environment returning three insight records. -/
def testPipelineEnv : PipelineEnv Nat :=
  ⟨true, fun _ => [7, 8, 9], fun l => ([l.length], [2], [3], [4], [5])⟩

/-- Concrete analyzer environment returning zero records. -/
def emptyPipelineEnv : PipelineEnv Nat :=
  ⟨true, fun _ => [], fun _ => ([1], [2], [3], [4], [5])⟩

/-- A manager holding two fresh sessions `s1` and `s2` (current: `s2`). -/
def mgrTwo : SessionManager :=
  (create_new_session 1 "s2" (create_new_session 0 "s1" SessionManager.init).1).1

/-- The record `create_new_session 0 "s1"` registers. -/
def sess1 : Session :=
  { created_at := 0
    uploaded_files := []
    processed_files := []
    session_path := joinPath USER_SESSIONS_PATH "session_s1"
    upload_path := joinPath (joinPath USER_SESSIONS_PATH "session_s1") "uploaded_pdfs"
    processed_path := joinPath (joinPath USER_SESSIONS_PATH "session_s1") "processed_data"
    last_updated := none
    last_processed := none
    insight_count := none }

/-- The record `create_new_session 1 "s2"` registers. -/
def sess2 : Session :=
  { created_at := 1
    uploaded_files := []
    processed_files := []
    session_path := joinPath USER_SESSIONS_PATH "session_s2"
    upload_path := joinPath (joinPath USER_SESSIONS_PATH "session_s2") "uploaded_pdfs"
    processed_path := joinPath (joinPath USER_SESSIONS_PATH "session_s2") "processed_data"
    last_updated := none
    last_processed := none
    insight_count := none }

/-- A concrete stand-in for `pd.read_csv`: fails to parse the content
`[9]`, parses anything else to itself. -/
def testRead : Bytes → Option Bytes :=
  fun b => if b = [9] then none else some b

/-- A concrete directory holding an unparseable insights table and a good
domain table; the other three table files are missing. -/
def fsW : FS :=
  [(joinPath "dp" "nlp_ai_insights.csv", [9]),
   (joinPath "dp" "nlp_domain_analysis.csv", [1, 2])]

/-- A manager whose session reference no longer resolves in the store. -/
def mgrDangling : SessionManager :=
  { current_mode := "default"
    current_session_id := some "gone"
    sessions := []
    has_unprocessed_files := false }

/-!
## Dictionary, path and ingestion-loop lemmas
-/

theorem dictGet_dictSet_self {α : Type} (m : List (String × α)) (k : String)
    (v : α) : dictGet (dictSet m k v) k = some v := by
  induction m with
  | nil => simp [dictGet, dictSet]
  | cons hd tl ih =>
    by_cases h : hd.1 = k
    · simp [dictGet, dictSet, h]
    · simpa [dictGet, dictSet, h] using ih

theorem dictGet_dictSet_ne {α : Type} (m : List (String × α)) {k k1 : String}
    (v : α) (h : k ≠ k1) : dictGet (dictSet m k v) k1 = dictGet m k1 := by
  induction m with
  | nil => simp [dictGet, dictSet, h]
  | cons hd tl ih =>
    by_cases h2 : hd.1 = k
    · simp [dictGet, dictSet, h2, h]
    · simp only [dictSet, h2, if_false, dictGet]
      by_cases h3 : hd.1 = k1 <;> simp [h3, ih]

theorem joinPath_right_inj {p a b : String} (h : joinPath p a = joinPath p b) :
    a = b := by
  have hd : (p ++ "/").data ++ a.data = (p ++ "/").data ++ b.data :=
    congrArg String.data h
  exact String.ext (List.append_cancel_left hd)

theorem joinPath_ne {p a b : String} (h : a ≠ b) :
    joinPath p a ≠ joinPath p b :=
  fun hc => h (joinPath_right_inj hc)

/-- A batch entry whose payload does not decode leaves the loop state
unchanged. -/
theorem ingestStep_skip (env : UploadEnv) (up : String) (acc : FS × List String)
    (c nm : String) (h : decodeContent env c = none) :
    ingestStep env up acc (c, nm) = acc := by
  unfold ingestStep
  by_cases hp : strEndsWith (strLower nm) ".pdf" = true
  · simp [hp, h]
  · simp [hp]

/-- The `saved_files` component of the ingestion loop is exactly the
accepted names, appended to the accumulator. -/
theorem ingest_foldl_saved (env : UploadEnv) (up : String) :
    ∀ (pairs : List (String × String)) (fs : FS) (saved : List String),
      (pairs.foldl (ingestStep env up) (fs, saved)).2
        = saved ++ acceptedNames env pairs := by
  intro pairs
  induction pairs with
  | nil => intro fs saved; simp [acceptedNames]
  | cons cf rest ih =>
    intro fs saved
    obtain ⟨content, filename⟩ := cf
    by_cases hp : strEndsWith (strLower filename) ".pdf" = true
    · cases hd : decodeContent env content with
      | none => simp [List.foldl_cons, ingestStep, hp, hd, acceptedNames, ih]
      | some d => simp [List.foldl_cons, ingestStep, hp, hd, acceptedNames, ih]
    · simp [List.foldl_cons, ingestStep, hp, acceptedNames, ih]

theorem overlayRead_none_right (o : Option Bytes) : overlayRead o none = o := by
  cases o <;> rfl

theorem overlayRead_assoc (a b c : Option Bytes) :
    overlayRead (overlayRead a b) c = overlayRead a (overlayRead b c) := by
  cases a <;> cases b <;> rfl

/-- The filesystem component of the ingestion loop: at the upload path of a
name `nm`, the final content is the last accepted payload for `nm`,
shadowing whatever was there before. -/
theorem ingest_foldl_read (env : UploadEnv) (up nm : String) :
    ∀ (pairs : List (String × String)) (fs : FS) (saved : List String),
      dictGet ((pairs.foldl (ingestStep env up) (fs, saved)).1) (joinPath up nm)
        = overlayRead (lastAcceptedPayload env nm pairs)
            (dictGet fs (joinPath up nm)) := by
  intro pairs
  induction pairs with
  | nil => intro fs saved; simp [overlayRead, lastAcceptedPayload]
  | cons cf rest ih =>
    intro fs saved
    obtain ⟨content, filename⟩ := cf
    by_cases hp : strEndsWith (strLower filename) ".pdf" = true
    · cases hd : decodeContent env content with
      | none =>
        rw [List.foldl_cons, ingestStep_skip env up _ content filename hd, ih]
        simp [lastAcceptedPayload, hp, hd, overlayRead_none_right]
      | some d =>
        by_cases hnm : filename = nm
        · subst hnm
          rw [List.foldl_cons]
          have hstep : ingestStep env up (fs, saved) (content, filename)
              = (dictSet fs (joinPath up filename) d, saved ++ [filename]) := by
            simp [ingestStep, hp, hd]
          rw [hstep, ih]
          rw [dictGet_dictSet_self]
          simp only [lastAcceptedPayload, hp, hd, overlayRead]
          cases lastAcceptedPayload env filename rest <;> simp
        · rw [List.foldl_cons]
          have hstep : ingestStep env up (fs, saved) (content, filename)
              = (dictSet fs (joinPath up filename) d, saved ++ [filename]) := by
            simp [ingestStep, hp, hd]
          rw [hstep, ih]
          rw [dictGet_dictSet_ne _ _ (joinPath_ne hnm)]
          simp [lastAcceptedPayload, hp, hnm, overlayRead_none_right]
    · rw [List.foldl_cons]
      have hstep : ingestStep env up (fs, saved) (content, filename)
          = (fs, saved) := by
        simp [ingestStep, hp]
      rw [hstep, ih]
      simp [lastAcceptedPayload, hp, overlayRead_none_right]

/-!
## Claim theorems
-/

set_option maxRecDepth 8000

/-- Claim C1, counterexample to the claim as stated: the claim says the
dirty flag "is set false only by a fully successful processing run; no
other operation (mode switch, reset to default, session removal) clears
it", but `switch_to_default` (the reset-to-sample-data action) clears it:
on a concrete state whose flag is true, switching to default turns it
false without any processing run. -/
theorem dirty_flag_cleared_by_mode_switch :
    mgrTwo.has_unprocessed_files = true
      ∧ (switch_to_default mgrTwo).has_unprocessed_files = false :=
  ⟨rfl, rfl⟩

/-- Claim C1 (amended): for every session, the dirty flag is set true by
any accepted ingestion into that session; it is set false by a fully
successful processing run, and additionally cleared by switching back to
default mode (the reset action) and by removing the currently-active
session; removing a non-current session and a failed processing run leave
it unchanged. -/
theorem dirty_flag_lifecycle :
    (∀ (env : UploadEnv) (now : Nat) (mgr : SessionManager) (fs : FS)
        (sid : String) (cs ns : List String) (s : Session),
        dictGet mgr.sessions sid = some s →
        acceptedNames env (cs.zip ns) ≠ [] →
        (add_files_to_session env now mgr fs sid cs ns).mgr.has_unprocessed_files
          = true)
  ∧ (∀ (α : Type) (env : PipelineEnv α) (now : Nat) (mgr : SessionManager)
        (fs : FS) (sid : String),
        (process_session_pdfs env now mgr fs sid).ok = true →
        (process_session_pdfs env now mgr fs sid).mgr.has_unprocessed_files
          = false)
  ∧ (∀ (α : Type) (env : PipelineEnv α) (now : Nat) (mgr : SessionManager)
        (fs : FS) (sid : String),
        (process_session_pdfs env now mgr fs sid).ok = false →
        (process_session_pdfs env now mgr fs sid).mgr.has_unprocessed_files
          = mgr.has_unprocessed_files)
  ∧ (∀ mgr : SessionManager,
        (switch_to_default mgr).has_unprocessed_files = false)
  ∧ (∀ (mgr : SessionManager) (fs : FS) (sid : String),
        mgr.current_session_id = some sid →
        (clear_session mgr fs sid).1.has_unprocessed_files = false)
  ∧ (∀ (mgr : SessionManager) (fs : FS) (sid : String),
        mgr.current_session_id ≠ some sid →
        (clear_session mgr fs sid).1.has_unprocessed_files
          = mgr.has_unprocessed_files) := by
  refine ⟨?_, ?_, ?_, ?_, ?_, ?_⟩
  · intro env now mgr fs sid cs ns s hs hacc
    simp [add_files_to_session, hs]
  · intro α env now mgr fs sid
    unfold process_session_pdfs
    split
    · intro h; simp at h
    · split
      · intro h; simp at h
      · dsimp only
        split
        · intro h; simp at h
        · intro _; rfl
  · intro α env now mgr fs sid
    unfold process_session_pdfs
    split
    · intro _; rfl
    · split
      · intro _; rfl
      · dsimp only
        split
        · intro _; rfl
        · intro h; simp at h
  · intro mgr; rfl
  · intro mgr fs sid h
    cases hdg : dictGet mgr.sessions sid <;> simp [clear_session, hdg, h]
  · intro mgr fs sid h
    cases hdg : dictGet mgr.sessions sid <;> simp [clear_session, hdg, h]

/-- Evaluation of `dirty_flag_lifecycle` on concrete states: an accepted
ingestion into `s1` of `mgrTwo` sets the flag, a failed (empty-result) run
leaves it unchanged, removing the current session `s2` clears it, removing
the non-current session `s1` leaves it unchanged. -/
theorem dirty_flag_lifecycle_witness :
    (add_files_to_session testUploadEnv 5 mgrTwo [] "s1"
        ["data:application/pdf;base64,QQ"] ["a.pdf"]).mgr.has_unprocessed_files
      = true
  ∧ (process_session_pdfs emptyPipelineEnv 5 mgrTwo [] "s1").mgr.has_unprocessed_files
      = mgrTwo.has_unprocessed_files
  ∧ (clear_session mgrTwo [] "s2").1.has_unprocessed_files = false
  ∧ (clear_session mgrTwo [] "s1").1.has_unprocessed_files
      = mgrTwo.has_unprocessed_files :=
  ⟨dirty_flag_lifecycle.1 testUploadEnv 5 mgrTwo [] "s1"
      ["data:application/pdf;base64,QQ"] ["a.pdf"] sess1 (by decide) (by decide),
   dirty_flag_lifecycle.2.2.1 Nat emptyPipelineEnv 5 mgrTwo [] "s1" (by decide),
   dirty_flag_lifecycle.2.2.2.2.1 mgrTwo [] "s2" (by decide),
   dirty_flag_lifecycle.2.2.2.2.2 mgrTwo [] "s1" (by decide)⟩

/-- Claim C2 (confirmed): if the analyzer is available, the session
resolves, and the analyzer returns the empty record sequence, then
`process_session_pdfs` returns the failure result with the
no-insights message and the manager state and filesystem are both
completely unchanged — in particular `insight_count`, `processed_files`,
`last_processed` and the dirty flag keep their prior values and no derived
file is written. -/
theorem empty_result_leaves_state_untouched {α : Type} (env : PipelineEnv α)
    (now : Nat) (mgr : SessionManager) (fs : FS) (sid : String) (s : Session)
    (hav : env.nlp_available = true)
    (hs : dictGet mgr.sessions sid = some s)
    (hempty : env.process_pdfs s.upload_path = []) :
    process_session_pdfs env now mgr fs sid
      = ⟨mgr, fs, false, "No insights extracted from PDFs"⟩ := by
  simp [process_session_pdfs, hav, hs, hempty]

/-- Evaluation of `empty_result_leaves_state_untouched`: an analyzer that
extracts zero records from session `s1` of `mgrTwo` leaves the whole state
untouched. -/
theorem empty_result_leaves_state_untouched_witness :
    process_session_pdfs emptyPipelineEnv 9 mgrTwo [] "s1"
      = ⟨mgrTwo, [], false, "No insights extracted from PDFs"⟩ :=
  empty_result_leaves_state_untouched emptyPipelineEnv 9 mgrTwo [] "s1" sess1
    rfl (by decide) rfl

/-- Claim C4, counterexample to the claim as stated: with a session
reference that does not resolve in the store, committing Session mode does
NOT silently set the mode to Default — the mode becomes `"user"`
unconditionally. -/
theorem set_mode_user_does_not_fall_back :
    currentSessionRecord mgrDangling = none
  ∧ (set_data_source mgrDangling "user").current_mode = "user"
  ∧ ¬ (set_data_source mgrDangling "user").current_mode = "default" := by
  refine ⟨rfl, rfl, ?_⟩
  decide

/-- Claim C4 (amended): committing a data-source mode never raises and
assigns the mode unconditionally, without consulting the session store;
the silent degradation for an unresolvable session id happens only at
path-resolution time, where `get_current_data_path` returns the shared
default path. -/
theorem set_data_source_commits_unconditionally (mgr : SessionManager)
    (ds : String) :
    (set_data_source mgr ds).current_mode = ds
  ∧ (set_data_source mgr ds).current_session_id = mgr.current_session_id
  ∧ (set_data_source mgr ds).sessions = mgr.sessions
  ∧ (currentSessionRecord mgr = none →
      get_current_data_path (set_data_source mgr "user") = DEFAULT_DATA_PATH) := by
  refine ⟨rfl, rfl, rfl, ?_⟩
  intro h
  simp only [get_current_data_path, set_data_source]
  rw [if_neg (by decide), if_pos trivial]
  have h2 : currentSessionRecord { mgr with current_mode := "user" } = none := h
  rw [h2]

/-- Evaluation of `set_data_source_commits_unconditionally` on the dangling
state: the mode becomes `"user"`, yet the resolved data path is the default
one. -/
theorem set_data_source_commits_unconditionally_witness :
    (set_data_source mgrDangling "user").current_mode = "user"
  ∧ get_current_data_path (set_data_source mgrDangling "user")
      = DEFAULT_DATA_PATH :=
  ⟨(set_data_source_commits_unconditionally mgrDangling "user").1,
   (set_data_source_commits_unconditionally mgrDangling "user").2.2.2 rfl⟩

/-- Claim C5 (confirmed): `get_current_data_path` is a total function that
never fails: in default mode it returns the fixed shared corpus path; in
user (session) mode it returns the current session's derived-data
directory when the id resolves in the store and the shared corpus path
otherwise; and after removing the currently-active session the resolved
path is again the shared corpus path, with no exception possible. -/
theorem get_current_data_path_total (mgr : SessionManager) :
    (mgr.current_mode = "default" →
      get_current_data_path mgr = DEFAULT_DATA_PATH)
  ∧ (∀ (sid : String) (s : Session), mgr.current_mode = "user" →
      mgr.current_session_id = some sid →
      dictGet mgr.sessions sid = some s →
      get_current_data_path mgr = s.processed_path)
  ∧ (mgr.current_mode = "user" → currentSessionRecord mgr = none →
      get_current_data_path mgr = DEFAULT_DATA_PATH)
  ∧ (∀ (fs : FS) (sid : String), mgr.current_session_id = some sid →
      get_current_data_path (clear_session mgr fs sid).1
        = DEFAULT_DATA_PATH) := by
  refine ⟨?_, ?_, ?_, ?_⟩
  · intro h; simp [get_current_data_path, h]
  · intro sid s hm hid hdict
    simp [get_current_data_path, hm, currentSessionRecord, hid, hdict]
  · intro hm hrec
    simp [get_current_data_path, hm, hrec]
  · intro fs sid h
    cases hdg : dictGet mgr.sessions sid <;>
      simp [clear_session, hdg, h, get_current_data_path]

/-- Evaluation of `get_current_data_path_total`: removing the current
session `s2` of `mgrTwo` and resolving the data path afterwards yields the
shared default path. -/
theorem get_current_data_path_total_witness :
    get_current_data_path (clear_session mgrTwo [] "s2").1
      = DEFAULT_DATA_PATH :=
  (get_current_data_path_total mgrTwo).2.2.2 [] "s2" (by decide)

/-- Claim C10 (confirmed): `create_new_session` has mode side effects:
after creating a new session the manager's mode is `"user"`, the current
session id is the newly allocated id, the dirty flag is already true, and
the registered record is still empty (no uploaded file, no insight
count). -/
theorem create_session_mode_side_effects (now : Nat) (sid : String)
    (mgr : SessionManager) :
    (create_new_session now sid mgr).1.current_mode = "user"
  ∧ (create_new_session now sid mgr).1.current_session_id = some sid
  ∧ (create_new_session now sid mgr).1.has_unprocessed_files = true
  ∧ ∃ s : Session,
      dictGet (create_new_session now sid mgr).1.sessions sid = some s
        ∧ s.uploaded_files = [] ∧ s.insight_count = none :=
  ⟨rfl, rfl, rfl, ⟨_, dictGet_dictSet_self _ _ _, rfl, rfl⟩⟩

/-- Claim C6 (confirmed): after an ingestion batch, the session's
uploaded-files log equals its prior value extended by exactly the accepted
names in submission order (non-`.pdf` names excluded, duplicates kept, so
ingesting the same name twice yields two log entries), and the stored file
content under each name is the payload of the last accepted entry bearing
that name (last-write-wins), with unrelated prior content untouched. -/
theorem ingest_log_and_last_write_wins (env : UploadEnv) (now : Nat)
    (mgr : SessionManager) (fs : FS) (sid : String)
    (cs ns : List String) (s : Session)
    (hs : dictGet mgr.sessions sid = some s) :
    dictGet (add_files_to_session env now mgr fs sid cs ns).mgr.sessions sid
      = some { s with
          uploaded_files := s.uploaded_files ++ acceptedNames env (cs.zip ns)
          last_updated := some now }
  ∧ get_session_files (add_files_to_session env now mgr fs sid cs ns).mgr sid
      = s.uploaded_files ++ acceptedNames env (cs.zip ns)
  ∧ ∀ nm : String,
      dictGet (add_files_to_session env now mgr fs sid cs ns).fs
          (joinPath s.upload_path nm)
        = overlayRead (lastAcceptedPayload env nm (cs.zip ns))
            (dictGet fs (joinPath s.upload_path nm)) := by
  have hsaved := ingest_foldl_saved env s.upload_path (cs.zip ns) fs []
  refine ⟨?_, ?_, ?_⟩
  · simp only [add_files_to_session, hs]
    rw [dictGet_dictSet_self, hsaved]
    simp
  · simp only [get_session_files, add_files_to_session, hs]
    rw [dictGet_dictSet_self, hsaved]
    simp [get_session_files]
  · intro nm
    simp only [add_files_to_session, hs]
    exact ingest_foldl_read env s.upload_path nm (cs.zip ns) fs []

/-- Evaluation of `ingest_log_and_last_write_wins`: ingesting `a.pdf`
twice with different payloads plus a rejected `notes.txt` into session
`s1` yields two `a.pdf` log entries and leaves the second payload
(`"Qg"`, code points `[81, 103]`) on disk. -/
theorem ingest_log_and_last_write_wins_witness :
    get_session_files
        (add_files_to_session testUploadEnv 7 mgrTwo [] "s1"
          ["data:application/pdf;base64,QQ", "data:application/pdf;base64,Qg", "zz"]
          ["a.pdf", "a.pdf", "notes.txt"]).mgr "s1"
      = ["a.pdf", "a.pdf"]
  ∧ dictGet
        (add_files_to_session testUploadEnv 7 mgrTwo [] "s1"
          ["data:application/pdf;base64,QQ", "data:application/pdf;base64,Qg", "zz"]
          ["a.pdf", "a.pdf", "notes.txt"]).fs
        (joinPath sess1.upload_path "a.pdf")
      = some [81, 103] := by
  have h := ingest_log_and_last_write_wins testUploadEnv 7 mgrTwo [] "s1"
    ["data:application/pdf;base64,QQ", "data:application/pdf;base64,Qg", "zz"]
    ["a.pdf", "a.pdf", "notes.txt"] sess1 (by decide)
  refine ⟨?_, ?_⟩
  · rw [h.2.1]; decide
  · rw [h.2.2 "a.pdf"]; decide

/-- Claim C7 (confirmed): a batch entry whose payload fails to decode is
skipped without aborting the batch: ingesting a batch containing the
failing entry produces exactly the same manager state and filesystem as
ingesting the batch with that entry removed, so every other accepted file
is still decoded, written and logged. -/
theorem decode_failure_skips_only_that_file (env : UploadEnv) (now : Nat)
    (mgr : SessionManager) (fs : FS) (sid : String) (c nm : String)
    (cs1 cs2 ns1 ns2 : List String)
    (hlen : cs1.length = ns1.length)
    (hfail : decodeContent env c = none) :
    add_files_to_session env now mgr fs sid (cs1 ++ c :: cs2) (ns1 ++ nm :: ns2)
      = add_files_to_session env now mgr fs sid (cs1 ++ cs2) (ns1 ++ ns2) := by
  have hzip1 : (cs1 ++ c :: cs2).zip (ns1 ++ nm :: ns2)
      = cs1.zip ns1 ++ (c, nm) :: cs2.zip ns2 := by
    rw [List.zip_append hlen, List.zip_cons_cons]
  have hzip2 : (cs1 ++ cs2).zip (ns1 ++ ns2) = cs1.zip ns1 ++ cs2.zip ns2 :=
    List.zip_append hlen
  unfold add_files_to_session
  rw [hzip1, hzip2]
  cases hdg : dictGet mgr.sessions sid with
  | none => rfl
  | some s =>
    dsimp only
    rw [List.foldl_append, List.foldl_append, List.foldl_cons,
      ingestStep_skip env s.upload_path _ c nm hfail]

/-- Evaluation of `decode_failure_skips_only_that_file`: a middle entry
with an undecodable payload leaves the result identical to the batch
without it. -/
theorem decode_failure_skips_only_that_file_witness :
    decodeContent testUploadEnv "" = none
  ∧ add_files_to_session testUploadEnv 7 mgrTwo [] "s1"
        ["data:application/pdf;base64,QQ", "", "data:application/pdf;base64,Qg"]
        ["a.pdf", "bad.pdf", "b.pdf"]
      = add_files_to_session testUploadEnv 7 mgrTwo [] "s1"
        ["data:application/pdf;base64,QQ", "data:application/pdf;base64,Qg"]
        ["a.pdf", "b.pdf"] :=
  ⟨by decide,
   decode_failure_skips_only_that_file testUploadEnv 7 mgrTwo [] "s1" ""
     "bad.pdf" ["data:application/pdf;base64,QQ"]
     ["data:application/pdf;base64,Qg"] ["a.pdf"] ["b.pdf"] rfl (by decide)⟩

/-- After the five sequential derived-table writes of
`process_session_pdfs`, every one of the five table files is present. -/
theorem tableWrites_read_all (p : String) (fs : FS) (t1 t2 t3 t4 t5 : Bytes) :
    ∀ nm ∈ tableFileNames,
      (dictGet (dictSet (dictSet (dictSet (dictSet (dictSet fs
          (joinPath p "nlp_ai_insights.csv") t1)
          (joinPath p "nlp_domain_analysis.csv") t2)
          (joinPath p "nlp_temporal_analysis.csv") t3)
          (joinPath p "nlp_pattern_analysis.csv") t4)
          (joinPath p "nlp_entity_analysis.csv") t5)
        (joinPath p nm)).isSome = true := by
  intro nm hnm
  simp only [tableFileNames, List.mem_cons, List.not_mem_nil, or_false] at hnm
  rcases hnm with h | h | h | h | h <;> subst h
  · rw [dictGet_dictSet_ne _ _ (joinPath_ne (by decide)),
      dictGet_dictSet_ne _ _ (joinPath_ne (by decide)),
      dictGet_dictSet_ne _ _ (joinPath_ne (by decide)),
      dictGet_dictSet_ne _ _ (joinPath_ne (by decide)),
      dictGet_dictSet_self]
    rfl
  · rw [dictGet_dictSet_ne _ _ (joinPath_ne (by decide)),
      dictGet_dictSet_ne _ _ (joinPath_ne (by decide)),
      dictGet_dictSet_ne _ _ (joinPath_ne (by decide)),
      dictGet_dictSet_self]
    rfl
  · rw [dictGet_dictSet_ne _ _ (joinPath_ne (by decide)),
      dictGet_dictSet_ne _ _ (joinPath_ne (by decide)),
      dictGet_dictSet_self]
    rfl
  · rw [dictGet_dictSet_ne _ _ (joinPath_ne (by decide)),
      dictGet_dictSet_self]
    rfl
  · rw [dictGet_dictSet_self]
    rfl

/-- Consequently the existence-check filter keeps all five names. -/
theorem tableWrites_filter (p : String) (fs : FS) (t1 t2 t3 t4 t5 : Bytes) :
    tableFileNames.filter (fun f =>
      (dictGet (dictSet (dictSet (dictSet (dictSet (dictSet fs
          (joinPath p "nlp_ai_insights.csv") t1)
          (joinPath p "nlp_domain_analysis.csv") t2)
          (joinPath p "nlp_temporal_analysis.csv") t3)
          (joinPath p "nlp_pattern_analysis.csv") t4)
          (joinPath p "nlp_entity_analysis.csv") t5)
        (joinPath p f)).isSome) = tableFileNames :=
  List.filter_eq_self.mpr (tableWrites_read_all p fs t1 t2 t3 t4 t5)

/-- Claim C3 (confirmed): when the analyzer is available, the session
resolves, and the analyzer returns a non-empty sequence of records, the
run succeeds and commits — in the single in-memory record update of the
success branch — `insight_count` equal to the number of records,
`last_processed` equal to the current clock, `processed_files` equal to
the full list of five table names, and the dirty flag false; all five
derived-table files are present afterwards. -/
theorem successful_run_commits_metadata {α : Type} (env : PipelineEnv α)
    (now : Nat) (mgr : SessionManager) (fs : FS) (sid : String) (s : Session)
    (insights : List α)
    (hav : env.nlp_available = true)
    (hs : dictGet mgr.sessions sid = some s)
    (hins : env.process_pdfs s.upload_path = insights)
    (hne : insights ≠ []) :
    (process_session_pdfs env now mgr fs sid).ok = true
  ∧ (process_session_pdfs env now mgr fs sid).mgr.has_unprocessed_files = false
  ∧ dictGet (process_session_pdfs env now mgr fs sid).mgr.sessions sid
      = some { s with
          processed_files := tableFileNames
          last_processed := some now
          insight_count := some insights.length }
  ∧ ∀ nm ∈ tableFileNames,
      (dictGet (process_session_pdfs env now mgr fs sid).fs
        (joinPath s.processed_path nm)).isSome = true := by
  subst hins
  have hisF : (env.process_pdfs s.upload_path).isEmpty = false := by
    cases h : env.process_pdfs s.upload_path with
    | nil => exact absurd h hne
    | cons a l => rfl
  refine ⟨?_, ?_, ?_, ?_⟩
  · simp [process_session_pdfs, hav, hs, hisF]
  · simp [process_session_pdfs, hav, hs, hisF]
  · simp only [process_session_pdfs, hav, hs, hisF]
    simp only [Bool.not_true, Bool.false_eq_true, if_false]
    rw [dictGet_dictSet_self, tableWrites_filter]
  · intro nm hnm
    simp only [process_session_pdfs, hav, hs, hisF]
    simp only [Bool.not_true, Bool.false_eq_true, if_false]
    exact tableWrites_read_all s.processed_path fs _ _ _ _ _ nm hnm

/-- Evaluation of `successful_run_commits_metadata`: an analyzer returning
three records over session `s1` of `mgrTwo` commits `insight_count = 3`,
the timestamp, all five table names and a false dirty flag. -/
theorem successful_run_commits_metadata_witness :
    (process_session_pdfs testPipelineEnv 11 mgrTwo [] "s1").ok = true
  ∧ (process_session_pdfs testPipelineEnv 11 mgrTwo [] "s1").mgr.has_unprocessed_files
      = false
  ∧ dictGet (process_session_pdfs testPipelineEnv 11 mgrTwo [] "s1").mgr.sessions
        "s1"
      = some { sess1 with
          processed_files := tableFileNames
          last_processed := some 11
          insight_count := some 3 } := by
  have h := successful_run_commits_metadata testPipelineEnv 11 mgrTwo [] "s1"
    sess1 [7, 8, 9] rfl (by decide) rfl (by decide)
  exact ⟨h.1, h.2.1, by rw [h.2.2.1]; rfl⟩

/-- Claim C9 (confirmed): the dirty flag is a single piece of manager
state shared by all sessions: an ingestion into session `sid1` makes
`get_processing_status` report the ready-to-process (dirty) message for a
different session `sid2`, and a successful processing run of `sid1`
resets the shared flag to false, so the status reported for `sid2` takes
one of the two non-dirty branches. -/
theorem dirty_flag_shared_across_sessions {α : Type} (uenv : UploadEnv)
    (penv : PipelineEnv α) (now : Nat) (mgr : SessionManager) (fs : FS)
    (sid1 sid2 : String) (s1 s2 : Session) (cs ns : List String)
    (h1 : dictGet mgr.sessions sid1 = some s1)
    (h2 : dictGet mgr.sessions sid2 = some s2)
    (hne : sid1 ≠ sid2) :
    ((add_files_to_session uenv now mgr fs sid1 cs ns).mgr.has_unprocessed_files
        = true
      ∧ get_processing_status
          (add_files_to_session uenv now mgr fs sid1 cs ns).mgr sid2
        = "Ready to process " ++ toString s2.uploaded_files.length ++ " PDFs")
  ∧ (penv.nlp_available = true → penv.process_pdfs s1.upload_path ≠ [] →
      ((process_session_pdfs penv now mgr fs sid1).mgr.has_unprocessed_files
          = false
        ∧ get_processing_status
            (process_session_pdfs penv now mgr fs sid1).mgr sid2
          = if s2.insight_count.getD 0 > 0 then
              "Processed " ++ toString s2.uploaded_files.length ++ " PDFs ("
                ++ toString (s2.insight_count.getD 0) ++ " insights)"
            else
              toString s2.uploaded_files.length
                ++ " PDFs uploaded - Ready to process")) := by
  constructor
  · constructor
    · simp [add_files_to_session, h1]
    · simp only [get_processing_status, add_files_to_session, h1]
      rw [dictGet_dictSet_ne _ _ hne, h2]
      simp
  · intro hav hne2
    have hisF : (penv.process_pdfs s1.upload_path).isEmpty = false := by
      cases h : penv.process_pdfs s1.upload_path with
      | nil => exact absurd h hne2
      | cons a l => rfl
    constructor
    · simp [process_session_pdfs, hav, h1, hisF]
    · simp only [get_processing_status, process_session_pdfs, hav, h1, hisF]
      simp only [Bool.not_true, Bool.false_eq_true, if_false]
      rw [dictGet_dictSet_ne _ _ hne, h2]

/-- Evaluation of `dirty_flag_shared_across_sessions` on `mgrTwo`:
ingesting into `s1` makes `s2` report the dirty message; a successful run
of `s1` makes `s2` report the non-dirty message. -/
theorem dirty_flag_shared_across_sessions_witness :
    (add_files_to_session testUploadEnv 5 mgrTwo [] "s1" [] []).mgr.has_unprocessed_files
      = true
  ∧ get_processing_status
        (add_files_to_session testUploadEnv 5 mgrTwo [] "s1" [] []).mgr "s2"
      = "Ready to process 0 PDFs"
  ∧ (process_session_pdfs testPipelineEnv 5 mgrTwo [] "s1").mgr.has_unprocessed_files
      = false
  ∧ get_processing_status
        (process_session_pdfs testPipelineEnv 5 mgrTwo [] "s1").mgr "s2"
      = "0 PDFs uploaded - Ready to process" := by
  have h := dirty_flag_shared_across_sessions testUploadEnv testPipelineEnv 5
    mgrTwo [] "s1" "s2" sess1 sess2 [] [] (by decide) (by decide) (by decide)
  have h2 := h.2 rfl (by decide)
  exact ⟨h.1.1, by rw [h.1.2]; decide, h2.1, by rw [h2.2]; decide⟩

/-- Each dataset slot of `load_from_path` is the `loadTable` read of its
own table file. -/
theorem slot_load {β : Type} (read_csv : Bytes → Option β) (emptyT : β)
    (fs : FS) (dp : String) (i : Fin 5) :
    slotOf (load_from_path read_csv emptyT fs dp) i
      = loadTable read_csv emptyT fs dp (slotName i) := by
  fin_cases i <;> rfl

/-- Claim C8 (confirmed): loading is a total function that never fails:
for each of the five canonical table slots, a missing table file yields
the empty table for that slot, a present-but-unparseable file also yields
the empty table for that slot, and a present parseable file yields the
parsed table — each slot depending only on its own file, so a failure in
one slot leaves the others loaded normally; `load_current_data` is this
five-slot load at the resolved data path. -/
theorem load_slot_characterization {β : Type} (read_csv : Bytes → Option β)
    (emptyT : β) (fs : FS) (data_path : String) (i : Fin 5) :
    (dictGet fs (joinPath data_path (slotName i)) = none →
      slotOf (load_from_path read_csv emptyT fs data_path) i = emptyT)
  ∧ (∀ c, dictGet fs (joinPath data_path (slotName i)) = some c →
      read_csv c = none →
      slotOf (load_from_path read_csv emptyT fs data_path) i = emptyT)
  ∧ (∀ c t, dictGet fs (joinPath data_path (slotName i)) = some c →
      read_csv c = some t →
      slotOf (load_from_path read_csv emptyT fs data_path) i = t)
  ∧ (∀ mgr : SessionManager,
      load_current_data read_csv emptyT mgr fs
        = load_from_path read_csv emptyT fs (get_current_data_path mgr)) := by
  refine ⟨?_, ?_, ?_, fun mgr => rfl⟩
  · intro h; rw [slot_load]; simp [loadTable, h]
  · intro c h1 h2; rw [slot_load]; simp [loadTable, h1, h2]
  · intro c t h1 h2; rw [slot_load]; simp [loadTable, h1, h2]

/-- Evaluation of `load_slot_characterization` on a directory with an
unparseable insights file, a good domain file, and a missing temporal
file: the bad and missing slots come back empty, the good slot parses,
and the call still returns all five tables. -/
theorem load_slot_characterization_witness :
    slotOf (load_from_path testRead [] fsW "dp") 0 = []
  ∧ slotOf (load_from_path testRead [] fsW "dp") 1 = [1, 2]
  ∧ slotOf (load_from_path testRead [] fsW "dp") 2 = [] :=
  ⟨(load_slot_characterization testRead [] fsW "dp" 0).2.1 [9]
      (by decide) (by decide),
   (load_slot_characterization testRead [] fsW "dp" 1).2.2.1 [1, 2] [1, 2]
      (by decide) (by decide),
   (load_slot_characterization testRead [] fsW "dp" 2).1 (by decide)⟩

end ChronoInsight
